import Mathlib

/-!
Shallow embedding of the POD-UQNN core (`poduqnn/varneuralnetwork.py` and
`poduqnn/metrics.py`) over the real numbers, together with theorems settling
the specification claims about it.

Conventions of the embedding:
* Machine floats become real numbers; `1e-6` is written `1 / 1000000`.
* A 2D numpy/TensorFlow array (rows = samples) becomes `List (List ℝ)`.
* A Keras `Dense` layer is a pair `(kernel, bias)`; the kernel is stored as the
  list of per-output-unit weight vectors, so unit `j` computes
  `dot (kernel.get j) x + bias.get j`.
* Python runtime exceptions are `Except PyError`.
-/

namespace PODUQNN

/-- Normalization mode constant "none" (module-level constant `NORM_NONE`). -/
def NORM_NONE : String := "none"

/-- Normalization mode constant "meanstd" (module-level constant `NORM_MEANSTD`). -/
def NORM_MEANSTD : String := "meanstd"

/-- Normalization mode constant "center" (module-level constant `NORM_CENTER`). -/
def NORM_CENTER : String := "center"

/-- Python runtime errors surfaced by the embedded operations. -/
inductive PyError where
  | indexError
  | fileNotFound
  | unboundLocal
deriving DecidableEq

/-- A 2D array of reals (rows = samples). -/
abbrev Mat := List (List ℝ)

/-- One Keras Dense layer: (kernel as list of per-unit weight vectors, bias). -/
abbrev DenseW := List (List ℝ) × List ℝ

/-- Sum of squares of the entries of a vector. -/
def sumSq (l : List ℝ) : ℝ := (l.map (fun x => x ^ 2)).sum

/-- Dot product of two vectors. -/
def dot (a b : List ℝ) : ℝ := (a.zipWith (fun x y => x * y) b).sum

/-- Application of one Dense layer (unit `j` outputs `dot w_j x + b_j`). -/
def denseApply (K : List (List ℝ)) (b : List ℝ) (x : List ℝ) : List ℝ :=
  (K.zip b).map (fun wb => dot wb.1 x + wb.2)

/-- `tf.nn.relu`: pointwise `max x 0`. -/
noncomputable def relu (t : ℝ) : ℝ := max t 0

/-- Raw forward pass of the functional model built in `build_model` (lines 42-62):
every layer but the last applies `relu`, the last layer is linear and has width
`2 * layers[-1]` (mean half and raw-scale half). -/
noncomputable def forwardRaw : List DenseW → List ℝ → List ℝ
  | [], x => x
  | [l], x => denseApply l.1 l.2 x
  | l :: rest, x => forwardRaw rest ((denseApply l.1 l.2 x).map relu)

/-- The model state of `VarNeuralNetwork` (constructor attributes, lines 19-40). -/
structure VarNeuralNetwork where
  layers : List ℕ
  lr : ℝ
  lam : ℝ
  adv_eps : Option ℝ
  soft_0 : ℝ
  norm : String
  norm_bounds : Option (List ℝ × List ℝ)
  weights : List DenseW

/-- Architecture data computed by `build_model`: reading `layers[0]` of an empty
list raises `IndexError`; otherwise the input width is `layers[0]`, the hidden
widths are `layers[1:-1]` and the output width is `layers[-1]`. -/
def build_model_arch (layers : List ℕ) : Except PyError (ℕ × List ℕ × ℕ) :=
  match layers with
  | [] => Except.error PyError.indexError
  | l0 :: rest => Except.ok (l0, rest.dropLast, rest.getLastD l0)

/-- Constructor `__init__` (lines 19-40): stores the hyperparameters and builds
the model; the only way it can fail is the `IndexError` inside `build_model`.
The `weights` argument stands for the weight values held by the Keras model
(loaded from `weights_path` or freshly initialized). -/
def mkVarNN (layers : List ℕ) (lr lam : ℝ) (adv_eps : Option ℝ) (soft_0 : ℝ)
    (norm : String) (norm_bounds : Option (List ℝ × List ℝ)) (weights : List DenseW) :
    Except PyError VarNeuralNetwork :=
  (build_model_arch layers).map (fun _ =>
    ⟨layers, lr, lam, adv_eps, soft_0, norm, norm_bounds, weights⟩)

/-- `layers[-1]`, the output dimension (defaults to 0 on an empty list, which a
constructed network never has). -/
def nOut (nn : VarNeuralNetwork) : ℕ := nn.layers.getLastD 0

/-- `tf.math.softplus x = log (1 + exp x)`. -/
noncomputable def softplus (x : ℝ) : ℝ := Real.log (1 + Real.exp x)

/-- The mean half of the raw network output (`t[..., :layers[-1]]`). -/
def locList (nn : VarNeuralNetwork) (t : List ℝ) : List ℝ := t.take (nOut nn)

/-- The scale half of the distribution head (lines 56-59):
`softplus (soft_0 * t[..., layers[-1]:]) + 1e-6`. -/
noncomputable def scaleList (nn : VarNeuralNetwork) (t : List ℝ) : List ℝ :=
  (t.drop (nOut nn)).map (fun s => softplus (nn.soft_0 * s) + 1 / 1000000)

/-- The normalization-relevant state (`self.norm`, `self.norm_bounds`). -/
structure NState where
  norm : String
  norm_bounds : Option (List ℝ × List ℝ)

/-- Columnwise fold over the rows of a 2D array (used for `np.amin`/`np.amax`
and columnwise sums; numpy reductions over `axis=0`). -/
def colFold (f : ℝ → ℝ → ℝ) : List (List ℝ) → List ℝ
  | [] => []
  | [r] => r
  | r :: rest => r.zipWith f (colFold f rest)

/-- `np.amin(X, axis=0)`. -/
noncomputable def colMin (X : Mat) : List ℝ := colFold (fun a b => min a b) X

/-- `np.amax(X, axis=0)`. -/
noncomputable def colMax (X : Mat) : List ℝ := colFold (fun a b => max a b) X

/-- `X.mean(0)`: columnwise arithmetic mean. -/
noncomputable def colMean (X : Mat) : List ℝ := (colFold (fun a b => a + b) X).map (fun s => s / (X.length : ℝ))

/-- `X.std(0)`: columnwise population standard deviation. -/
noncomputable def colStd (X : Mat) : List ℝ :=
  (colMean (X.map (fun r => r.zipWith (fun x m => (x - m) ^ 2) (colMean X)))).map Real.sqrt

/-- `set_normalize_bounds` (lines 64-73): recompute and store the bounds
according to the mode; a no-op for any other mode. -/
noncomputable def set_normalize_bounds (nst : NState) (X : Mat) : NState :=
  if nst.norm = NORM_CENTER then
    { nst with norm_bounds := Option.some (colMin X, colMax X) }
  else if nst.norm = NORM_MEANSTD then
    { nst with norm_bounds := Option.some (colMean X, colStd X) }
  else nst

/-- The value computed by `normalize` (lines 75-86): identity when no bounds
are stored (or the mode is unrecognized); otherwise the centering or the
standard-score transform using the stored bounds. The final
`tf.convert_to_tensor` is the identity on values. -/
noncomputable def normalizeVal (norm : String) (bounds : Option (List ℝ × List ℝ)) (X : Mat) : Mat :=
  match bounds with
  | Option.none => X
  | Option.some b =>
    if norm = NORM_CENTER then
      X.map (fun row => (row.zip (b.1.zip b.2)).map
        (fun p => (p.1 - p.2.1) - (1 / 2) * (p.2.2 - p.2.1)))
    else if norm = NORM_MEANSTD then
      X.map (fun row => (row.zip (b.1.zip b.2)).map (fun p => (p.1 - p.2.1) / p.2.2))
    else X

/-- `normalize` as a state-passing operation: it reads but never writes the
stored bounds, so the state component of the result is the input state. -/
noncomputable def normalize (nst : NState) (X : Mat) : Mat × NState :=
  (normalizeVal nst.norm nst.norm_bounds X, nst)

/-- `tf.nn.l2_loss`: HALF the sum of squares of a tensor. -/
noncomputable def l2_loss (t : List ℝ) : ℝ := sumSq t / 2

/-- `regularization` (lines 88-92): `lam` times the sum of `tf.nn.l2_loss` over
every trainable variable (each layer's kernel tensor and bias tensor). -/
noncomputable def regularization (nn : VarNeuralNetwork) : ℝ :=
  nn.lam * ((nn.weights.map (fun l => l2_loss l.1.flatten + l2_loss l.2)).sum)

/-- The definition the SPEC's words describe for the L2 penalty:
"regularization coefficient × sum of squared trainable parameters"
(no halving). Kept separate to compare with `regularization`. -/
def specL2Penalty (nn : VarNeuralNetwork) : ℝ :=
  nn.lam * ((nn.weights.map (fun l => sumSq l.1.flatten + sumSq l.2)).sum)

/-- Log-density of `tfd.Normal loc scale` at `t`. -/
noncomputable def normalLogProb (loc scale t : ℝ) : ℝ :=
  -Real.log scale - Real.log (2 * Real.pi) / 2 - (t - loc) ^ 2 / (2 * scale ^ 2)

/-- One row's contribution to `tf.reduce_sum (-y_pred.log_prob v)`. -/
noncomputable def nllRow (nn : VarNeuralNetwork) (x targetRow : List ℝ) : ℝ :=
  ((((locList nn (forwardRaw nn.weights x)).zip
      (scaleList nn (forwardRaw nn.weights x))).zip targetRow).map
    (fun q => -(normalLogProb q.1.1 q.1.2 q.2))).sum

/-- `tf.reduce_sum (-(self.model X).log_prob v)` over the whole batch. -/
noncomputable def nllSum (nn : VarNeuralNetwork) (X v : Mat) : ℝ :=
  ((X.zip v).map (fun r => nllRow nn r.1 r.2)).sum

/-- The base loss of `grad` (line 100): summed negative log-likelihood plus the
L2 regularization. -/
noncomputable def baseLoss (nn : VarNeuralNetwork) (X v : Mat) : ℝ :=
  nllSum nn X v + regularization nn

/-- Partial derivative of the base loss with respect to the entry `(i, j)` of
the input batch (what `tape.gradient(loss_value, X)` holds at that entry). -/
noncomputable def dLoss_dX (nn : VarNeuralNetwork) (X v : Mat) (i j : ℕ) : ℝ :=
  deriv (fun t => baseLoss nn (X.set i ((X.getD i []).set j t)) v)
    ((X.getD i []).getD j 0)

/-- The fast-gradient-sign perturbed input (line 103):
`X + adv_eps * sign (dLoss/dX)`; `tf.math.sign 0 = 0 = Real.sign 0`. -/
noncomputable def advInput (nn : VarNeuralNetwork) (eps : ℝ) (X v : Mat) : Mat :=
  X.mapIdx (fun i row => row.mapIdx (fun j x => x + eps * Real.sign (dLoss_dX nn X v i j)))

/-- The scalar loss value returned by `grad` (lines 94-108). When `adv_eps` is
set, line 105 adds the negative log-likelihood at the perturbed input AND a
second copy of `regularization`. The parameter-gradient component of `grad`
is not modeled (no claim concerns it). -/
noncomputable def grad_loss_value (nn : VarNeuralNetwork) (X v : Mat) : ℝ :=
  match nn.adv_eps with
  | Option.none => baseLoss nn X v
  | Option.some eps =>
      baseLoss nn X v + (nllSum nn (advInput nn eps X v) v + regularization nn)

/-- `tf_optimization` (lines 114-120): run `step` for `tf_epochs` epochs on the
full batch, threading the trainable-parameter/optimizer state `σ`. The Python
local `loss_value` is unbound before the loop; returning it after zero
iterations raises `UnboundLocalError`, modeled as the `Except.error` slot of
the accumulator. The per-epoch logging call does not affect the result. The
optimizer step (`tf_optimization_step`: `grad` + Adam update) is abstracted as
the `step` argument, since the claims about this loop are control-flow only. -/
def tf_optimization {σ : Type} (step : σ → Mat → Mat → σ × ℝ)
    (st : σ) (X_v v : Mat) (tf_epochs : ℕ) : σ × Except PyError ℝ :=
  (List.range tf_epochs).foldl
    (fun acc _ => ((step acc.1 X_v v).1, Except.ok (step acc.1 X_v v).2))
    (st, Except.error PyError.unboundLocal)

/-- `fit` (lines 130-144): set the normalization bounds from this call's
training inputs, normalize them, then optimize; `last_loss` is the value
returned by `tf_optimization`, whose `UnboundLocalError` propagates. Logging
calls do not affect the result. -/
noncomputable def fit {σ : Type} (step : σ → Mat → Mat → σ × ℝ) (st : σ) (nst : NState)
    (X_v v : Mat) (epochs : ℕ) : Except PyError (σ × NState × ℝ) :=
  match tf_optimization step st
      (normalizeVal (set_normalize_bounds nst X_v).norm
        (set_normalize_bounds nst X_v).norm_bounds X_v) v epochs with
  | (st2, Except.ok loss) => Except.ok (st2, set_normalize_bounds nst X_v, loss)
  | (_, Except.error e) => Except.error e

/-- `fit_simple` (lines 146-152): like `fit` but without logging; the result of
`tf_optimization` is discarded, but the `UnboundLocalError` raised inside it
still propagates. -/
noncomputable def fit_simple {σ : Type} (step : σ → Mat → Mat → σ × ℝ) (st : σ) (nst : NState)
    (X_v v : Mat) (epochs : ℕ) : Except PyError (σ × NState) :=
  match tf_optimization step st
      (normalizeVal (set_normalize_bounds nst X_v).norm
        (set_normalize_bounds nst X_v).norm_bounds X_v) v epochs with
  | (st2, Except.ok _) => Except.ok (st2, set_normalize_bounds nst X_v)
  | (_, Except.error e) => Except.error e

/-- `predict` (lines 154-160): normalize the input with the stored bounds and
return the per-row means and variances of the predicted Normal distributions
(`variance = scale ^ 2`). -/
noncomputable def predict (nn : VarNeuralNetwork) (X : Mat) : Mat × Mat :=
  ((normalizeVal nn.norm nn.norm_bounds X).map
     (fun x => locList nn (forwardRaw nn.weights x)),
   (normalizeVal nn.norm nn.norm_bounds X).map
     (fun x => (scaleList nn (forwardRaw nn.weights x)).map (fun s => s ^ 2)))

/-- The pickled params tuple of `save_to` (line 178):
`(layers, lr, lam, soft_0, norm, norm_bounds)`. -/
abbrev SavedParams := List ℕ × ℝ × ℝ × ℝ × String × Option (List ℝ × List ℝ)

/-- `save_to` (lines 175-180): the params artifact and the weights artifact. -/
def save_to (nn : VarNeuralNetwork) : SavedParams × List DenseW :=
  ((nn.layers, nn.lr, nn.lam, nn.soft_0, nn.norm, nn.norm_bounds), nn.weights)

/-- `load_from` (lines 182-193): `FileNotFoundError` when the params artifact
is absent; otherwise unpickle `(layers, lr, lam, soft_0, norm, norm_bounds)`
and call the constructor. The source passes only
`cls(layers, lr, lam, weights_path=weights_path, norm=norm, norm_bounds=norm_bounds)`,
so the unpickled `soft_0` is DROPPED (the default `1.` applies) and `adv_eps`
keeps its default `None`. -/
def load_from (weights : List DenseW) (params : Option SavedParams) :
    Except PyError VarNeuralNetwork :=
  match params with
  | Option.none => Except.error PyError.fileNotFound
  | Option.some p =>
      mkVarNN p.1 p.2.1 p.2.2.1 Option.none 1 p.2.2.2.2.1 p.2.2.2.2.2 weights

/-- Euclidean norm (`numpy.linalg.norm`) of a vector. -/
noncomputable def normE (U : List ℝ) : ℝ := Real.sqrt (sumSq U)

/-- `re` (metrics.py lines 11-13): `norm (U - U_pred) / norm U`. -/
noncomputable def re (U U_pred : List ℝ) : ℝ :=
  normE (U.zipWith (fun a b => a - b) U_pred) / normE U

/-- `re_max` (metrics.py lines 16-18):
`norm (U - U_pred) / max (norm U) (norm U_pred)`. -/
noncomputable def re_max (U U_pred : List ℝ) : ℝ :=
  normE (U.zipWith (fun a b => a - b) U_pred) / max (normE U) (normE U_pred)

/-- Claim C6, as stated: construction with any layers list of fewer than 2
entries fails. Refuted below: a one-element list constructs successfully. -/
theorem construction_single_entry_ok :
    mkVarNN [5] 1 1 Option.none 1 NORM_NONE Option.none [] =
      Except.ok ⟨[5], 1, 1, Option.none, 1, NORM_NONE, Option.none, []⟩ := rfl

/-- Claim C6 (corrected): construction fails (with the `IndexError` raised when
`build_model` reads `layers[0]`) exactly when the layers list is empty; in
particular a one-element layers list does NOT fail fast. -/
theorem construction_fails_iff_empty (layers : List ℕ) (lr lam : ℝ)
    (adv_eps : Option ℝ) (soft_0 : ℝ) (norm : String)
    (norm_bounds : Option (List ℝ × List ℝ)) (weights : List DenseW) :
    mkVarNN layers lr lam adv_eps soft_0 norm norm_bounds weights =
      Except.error PyError.indexError ↔ layers = [] := by
  cases layers with
  | nil => simp [mkVarNN, build_model_arch, Except.map]
  | cons l0 rest => simp [mkVarNN, build_model_arch, Except.map]

/-- Claim C7: loading with an absent params artifact fails explicitly with the
missing-artifact error (`FileNotFoundError`), for every weights artifact; no
model instance is constructed. -/
theorem load_from_missing_params_errors (weights : List DenseW) :
    load_from weights Option.none = Except.error PyError.fileNotFound := rfl

/-- Claim C10: calling `fit_simple` or `fit` with `epochs = 0` raises an error
(the loop-local `loss_value` is returned without ever being assigned, an
`UnboundLocalError`) instead of returning normally, for every training batch,
optimizer state and step function. -/
theorem fit_zero_epochs_errors {σ : Type} (step : σ → Mat → Mat → σ × ℝ)
    (st : σ) (nst : NState) (X_v v : Mat) :
    fit_simple step st nst X_v v 0 = Except.error PyError.unboundLocal ∧
    fit step st nst X_v v 0 = Except.error PyError.unboundLocal := ⟨rfl, rfl⟩

/-- Summing a list of halves is half the sum. -/
theorem sum_map_half {α : Type} (f g : α → ℝ) (l : List α) :
    (l.map (fun x => f x / 2 + g x / 2)).sum = (l.map (fun x => f x + g x)).sum / 2 := by
  induction l with
  | nil => simp
  | cons a t ih => simp only [List.map_cons, List.sum_cons, ih]; ring

/-- A network with a single trainable weight of value 2 (and lam = 1). -/
noncomputable def nnReg : VarNeuralNetwork :=
  ⟨[1, 1], 1, 1, Option.none, 1, NORM_NONE, Option.none, [([[2]], [0])]⟩

/-- Claim C3, as stated, is false: on `nnReg` (lam = 1, parameters {2, 0}) the
code's penalty is `1 * l2_loss = 2`, not the claimed `1 * sumsq = 4`, because
`tf.nn.l2_loss` is HALF the sum of squares. -/
theorem regularization_counterexample : regularization nnReg ≠ specL2Penalty nnReg := by
  simp [regularization, specL2Penalty, l2_loss, sumSq, nnReg]
  norm_num

/-- Claim C3 (corrected): for every model state, the L2 penalty equals the
regularization coefficient times HALF the sum of the squares of all trainable
parameters. -/
theorem regularization_eq_half_sumsq (nn : VarNeuralNetwork) :
    regularization nn = specL2Penalty nn / 2 := by
  unfold regularization specL2Penalty l2_loss
  rw [sum_map_half]
  ring

/-- A trivial optimizer step (the claims below hold for every step function;
this concrete one is used in closed statements). -/
def step0 : Unit → Mat → Mat → Unit × ℝ := fun _ _ _ => (Unit.unit, 0)

/-- A fresh center-mode normalization state. -/
def nstA : NState := ⟨NORM_CENTER, Option.none⟩

/-- The normalization state after a first fit on the batch `[[0]]`. -/
noncomputable def nstB : NState := set_normalize_bounds nstA [[0]]

/-- The normalization state after a second fit on the batch `[[1]]`. -/
noncomputable def nstC : NState := set_normalize_bounds nstB [[1]]

/-- Claim C4, as stated, is false: after a first fit (on `[[0]]`, bounds
`([0], [0])`), a second fit on `[[1]]` overwrites the stored bounds with
`([1], [1])` — the bounds are not immutable after the first fit. -/
theorem fit_recomputes_bounds_counterexample :
    (fit step0 Unit.unit nstA [[0]] [[0]] 1).map (fun r => r.2.1) = Except.ok nstB ∧
    (fit step0 Unit.unit nstB [[1]] [[1]] 1).map (fun r => r.2.1) = Except.ok nstC ∧
    nstC.norm_bounds ≠ nstB.norm_bounds := by
  refine ⟨rfl, rfl, ?_⟩
  simp [nstC, nstB, nstA, set_normalize_bounds, NORM_CENTER, NORM_MEANSTD,
    colMin, colMax, colFold]

/-- Claim C4 (corrected): every fit call recomputes the stored bounds from that
call's training inputs (`set_normalize_bounds`), and subsequent normalize calls
(including at inference time) reuse the stored bounds without modifying them;
the bounds are only immutable between fits, not across them. -/
theorem bounds_recomputed_per_fit {σ : Type} (step : σ → Mat → Mat → σ × ℝ)
    (st : σ) (nst : NState) (X v Y : Mat) :
    (fit step st nst X v 1).map (fun r => r.2.1) =
      Except.ok (set_normalize_bounds nst X) ∧
    (normalize (set_normalize_bounds nst X) Y).2 = set_normalize_bounds nst X :=
  ⟨rfl, rfl⟩

/-- A center-mode state with fixed stored bounds `([1], [1])`. -/
noncomputable def nstFixed : NState := ⟨NORM_CENTER, Option.some ([1], [1])⟩

/-- Claim C8, as stated, is false: with fixed center-mode bounds `([1], [1])`,
`normalize [[0]] = [[-1]]` but `normalize (normalize [[0]]) = [[-2]]` — the
centering transform is not idempotent. -/
theorem normalize_twice_not_idempotent :
    (normalize nstFixed ((normalize nstFixed [[0]]).1)).1 ≠
      (normalize nstFixed [[0]]).1 := by
  simp [normalize, normalizeVal, nstFixed, NORM_CENTER]

/-- Claim C8 (corrected): a second normalize application always leaves the
stored bounds unchanged, but `normalize (normalize X) = normalize X` only in
the degenerate case (for example, when no bounds are stored, where normalize is
the identity); for set center/meanstd bounds it fails in general. -/
theorem normalize_second_keeps_bounds (nst : NState) (X : Mat) :
    (normalize nst ((normalize nst X).1)).2 = nst ∧
    (nst.norm_bounds = Option.none →
      (normalize nst ((normalize nst X).1)).1 = (normalize nst X).1) := by
  refine ⟨rfl, fun h => ?_⟩
  simp [normalize, normalizeVal, h]

/-- Witness for `normalize_second_keeps_bounds` at a concrete state with unset
bounds and the batch `[[3]]`. -/
theorem normalize_second_keeps_bounds_witness :
    (normalize ⟨NORM_NONE, Option.none⟩
        ((normalize ⟨NORM_NONE, Option.none⟩ [[3]]).1)).2 =
      (⟨NORM_NONE, Option.none⟩ : NState) ∧
    (normalize ⟨NORM_NONE, Option.none⟩
        ((normalize ⟨NORM_NONE, Option.none⟩ [[3]]).1)).1 =
      (normalize ⟨NORM_NONE, Option.none⟩ [[3]]).1 :=
  ⟨(normalize_second_keeps_bounds ⟨NORM_NONE, Option.none⟩ [[3]]).1,
   (normalize_second_keeps_bounds ⟨NORM_NONE, Option.none⟩ [[3]]).2 rfl⟩

/-- A sum of squares is nonnegative. -/
theorem sumSq_nonneg (l : List ℝ) : 0 ≤ sumSq l := by
  induction l with
  | nil => simp [sumSq]
  | cons a t ih =>
    simp only [sumSq, List.map_cons, List.sum_cons]
    exact add_nonneg (sq_nonneg a) ih

/-- A sum of squares with one nonzero entry is positive. -/
theorem sumSq_pos {l : List ℝ} {x : ℝ} (hx : x ∈ l) (hx0 : x ≠ 0) : 0 < sumSq l := by
  induction l with
  | nil => cases hx
  | cons a t ih =>
    simp only [sumSq, List.map_cons, List.sum_cons]
    rcases List.mem_cons.mp hx with h | h
    · subst h
      exact add_pos_of_pos_of_nonneg (sq_pos_of_ne_zero hx0) (sumSq_nonneg t)
    · exact add_pos_of_nonneg_of_pos (sq_nonneg a) (ih h)

/-- Euclidean norms are nonnegative. -/
theorem normE_nonneg (U : List ℝ) : 0 ≤ normE U := Real.sqrt_nonneg _

/-- The Euclidean norm of a vector with a nonzero entry is positive. -/
theorem normE_pos {U : List ℝ} (h : ∃ x ∈ U, x ≠ 0) : 0 < normE U := by
  obtain ⟨x, hx, hx0⟩ := h
  exact Real.sqrt_pos.mpr (sumSq_pos hx hx0)

/-- Claim C9: for every pair of vectors with U nonzero, whenever
`‖U_pred‖ ≥ ‖U‖`, `re_max U U_pred` never exceeds `re U U_pred` (the max in
the denominator is then `‖U_pred‖ ≥ ‖U‖ > 0`). -/
theorem re_max_le_re (U U_pred : List ℝ) (hU : ∃ x ∈ U, x ≠ 0)
    (h : normE U ≤ normE U_pred) : re_max U U_pred ≤ re U U_pred := by
  have hU0 : 0 < normE U := normE_pos hU
  unfold re re_max
  rw [max_eq_right h]
  exact div_le_div_of_nonneg_left (normE_nonneg _) hU0 h

/-- Witness for `re_max_le_re` at `U = [3]`, `U_pred = [5]`. -/
theorem re_max_le_re_witness : re_max [3] [5] ≤ re [3] [5] :=
  re_max_le_re [3] [5] ⟨3, by simp, by norm_num⟩
    (by
      unfold normE sumSq
      norm_num)

/-- The softplus transform is nonnegative (`1 + exp x ≥ 1`). -/
theorem softplus_nonneg (x : ℝ) : 0 ≤ softplus x :=
  Real.log_nonneg (by linarith [Real.exp_pos x])

/-- Mapping a function with a universally valid property preserves
`List.Forall`. -/
theorem forall_map_of_forall {α β : Type} {p : β → Prop} {f : α → β}
    (h : ∀ a, p (f a)) (l : List α) : List.Forall p (l.map f) := by
  induction l with
  | nil => trivial
  | cons a t ih => exact (List.forall_cons p (f a) (t.map f)).mpr ⟨h a, ih⟩

/-- Claim C5: for every model state (any weight values, any normalization
configuration) and every input batch, every variance value returned by
`predict` is strictly positive: the scale is `softplus (soft_0 * raw) + 1e-6`
and the variance is its square. -/
theorem predict_variance_pos (nn : VarNeuralNetwork) (X : Mat) :
    List.Forall (fun row => List.Forall (fun v => 0 < v) row) (predict nn X).2 := by
  refine forall_map_of_forall (fun x => ?_) _
  rw [scaleList, List.map_map]
  refine forall_map_of_forall (fun s => ?_) _
  have h1 : (0:ℝ) < softplus (nn.soft_0 * s) + 1 / 1000000 :=
    add_pos_of_nonneg_of_pos (softplus_nonneg _) (by norm_num)
  exact pow_pos h1 2

/-- A network with adversarial training enabled: `adv_eps = 1/10`, `lam = 2`,
a zero kernel and bias `(0, 1)`, so its regularization term is `1`. -/
noncomputable def nnAdv : VarNeuralNetwork :=
  ⟨[1, 1], 1, 2, Option.some (1 / 10), 1, NORM_NONE, Option.none, [([[0], [0]], [0, 1])]⟩

/-- Claim C2, as stated, is false on `nnAdv`: `grad` (line 105) also adds the
regularization a SECOND time in the adversarial branch, so the returned loss
differs from base loss + adversarial NLL by `regularization nnAdv = 1`. -/
theorem grad_adv_counterexample :
    grad_loss_value nnAdv [[0]] [[0]] ≠
      baseLoss nnAdv [[0]] [[0]] +
        nllSum nnAdv (advInput nnAdv (1 / 10) [[0]] [[0]]) [[0]] := by
  intro h
  have h2 : baseLoss nnAdv [[0]] [[0]] +
      (nllSum nnAdv (advInput nnAdv (1 / 10) [[0]] [[0]]) [[0]] +
        regularization nnAdv) =
      baseLoss nnAdv [[0]] [[0]] +
        nllSum nnAdv (advInput nnAdv (1 / 10) [[0]] [[0]]) [[0]] := h
  have hreg : regularization nnAdv = 0 := by linarith
  rw [regularization] at hreg
  simp [nnAdv, l2_loss, sumSq] at hreg

/-- Claim C2 (corrected): when a perturbation magnitude is configured, the loss
returned by `grad` equals the base loss plus the negative log-likelihood at
the fast-gradient-sign perturbed input PLUS the L2 penalty a second time. -/
theorem grad_adv_loss_eq (nn : VarNeuralNetwork) (X v : Mat) (eps : ℝ)
    (h : nn.adv_eps = Option.some eps) :
    grad_loss_value nn X v =
      baseLoss nn X v +
        (nllSum nn (advInput nn eps X v) v + regularization nn) := by
  unfold grad_loss_value
  rw [h]

/-- Witness for `grad_adv_loss_eq` at the concrete network `nnAdv`. -/
theorem grad_adv_loss_eq_witness :
    grad_loss_value nnAdv [[0]] [[0]] =
      baseLoss nnAdv [[0]] [[0]] +
        (nllSum nnAdv (advInput nnAdv (1 / 10) [[0]] [[0]]) [[0]] +
          regularization nnAdv) :=
  grad_adv_loss_eq nnAdv [[0]] [[0]] (1 / 10) rfl

/-- A trained network with variance-scale parameter `soft_0 = 2`; its single
dense layer has a zero kernel and bias `(0, 1)`, so the raw scale output is
`1` for every input. -/
noncomputable def nnSaved : VarNeuralNetwork :=
  ⟨[1, 1], 1, 0, Option.none, 2, NORM_NONE, Option.none, [([[0], [0]], [0, 1])]⟩

/-- What `load_from` reconstructs from `nnSaved`'s artifacts: identical except
`soft_0`, which reverts to the constructor default `1`. -/
noncomputable def nnLoaded : VarNeuralNetwork :=
  ⟨[1, 1], 1, 0, Option.none, 1, NORM_NONE, Option.none, [([[0], [0]], [0, 1])]⟩

/-- softplus is strictly monotone. -/
theorem softplus_lt_softplus {x y : ℝ} (h : x < y) : softplus x < softplus y :=
  Real.log_lt_log (by positivity) (by linarith [Real.exp_lt_exp.mpr h])

/-- Claim C1 fails on the code: saving `nnSaved` (`soft_0 = 2`) and loading the
pair of artifacts back yields `nnLoaded` whose `soft_0` is `1` — `load_from`
unpickles `soft_0` but does not pass it to the constructor (line 193) — and
the variance predictions of the two instances on the batch `[[0]]` differ
(`(softplus 1 + 1e-6)^2` versus `(softplus 2 + 1e-6)^2`). -/
theorem save_load_roundtrip_bug :
    load_from (save_to nnSaved).2 (Option.some (save_to nnSaved).1) =
      Except.ok nnLoaded ∧
    nnLoaded.soft_0 ≠ nnSaved.soft_0 ∧
    (predict nnLoaded [[0]]).2 ≠ (predict nnSaved [[0]]).2 := by
  refine ⟨rfl, by norm_num [nnLoaded, nnSaved], ?_⟩
  have h1 : softplus (1 : ℝ) < softplus 2 := softplus_lt_softplus (by norm_num)
  have h2 : (0:ℝ) ≤ softplus 1 + 1 / 1000000 :=
    add_nonneg (softplus_nonneg 1) (by norm_num)
  have hlt : (softplus (1:ℝ) + 1 / 1000000) ^ 2 < (softplus 2 + 1 / 1000000) ^ 2 :=
    pow_lt_pow_left₀ (by linarith) h2 (by norm_num)
  simp [predict, normalizeVal, nnLoaded, nnSaved, forwardRaw, denseApply, dot,
    scaleList, locList, nOut]
  norm_num
  exact ne_of_lt hlt

end PODUQNN
